import Mathlib

/-!
# Nimble Banking Hub — ledger and loan engine, shallow embedding

Embedding of the money-moving core of `src/src/contexts/BankingContext.tsx`
(the `transfer`, `applyForLoan`, `makeLoanPayment` and `fetchLoans`
functions of the `BankingProvider`) together with the pre-submit
validation of `src/src/components/TransferModal.tsx` (`handleSubmit`).

Modelling conventions:
* JavaScript numbers are modelled as exact rationals (`ℚ`).
* The Supabase database is a `DB` record: the `account`, `transactions`,
  `loans` and `customers` tables.  Database-generated ids for transaction
  rows and row timestamps (`new Date()`) carry no ledger information and
  are elided; the loans table keeps an explicit `nextLoanId` counter for
  the generated `loan_id`.
* React component state (`loans`, `accountId`) and the authenticated
  `user` object of `AuthContext` are the remaining fields of `BankState`.
  The local `transactions` mirror kept by `fetchTransactions` is a pure
  read-back of the `transactions` table and is not duplicated in the
  state.
* Each operation returns an `OpResult`: the post-call state, the ordered
  trace of database mutations it performed (transaction-row inserts,
  loan-row inserts and balance updates), and `none` on success or the
  thrown error.  A step
  that throws stops the operation with the mutations already performed
  left in place, exactly as the sequential `await supabase...` calls do.
* JavaScript truthiness of `accountId` (`if (accountId)`) is modelled by
  `truthy`: `null` and `0` are falsy.
-/

/-- The errors thrown by the banking operations (`throw new Error(...)`
in `BankingContext.tsx`) plus the failure of the spec-modelled
`update_balance` RPC. -/
inductive BankErr where
  /-- Thrown by `transfer`: "No account found" when `accountId` is falsy. -/
  | noAccount
  /-- Thrown by `applyForLoan` and `makeLoanPayment`: "User not authenticated". -/
  | userNotAuth
  /-- "Loan amount must be greater than zero" / "Payment amount must be
  greater than zero"; also the `update_balance` model's failure on a
  zero delta. -/
  | invalidAmount
  /-- Thrown by `applyForLoan`: "Loan term must be between 3 and 60 months". -/
  | invalidTerm
  /-- Thrown by `applyForLoan`: customer lookup failed or "Customer record not found". -/
  | customerNotFound
  /-- Thrown by `makeLoanPayment`: "Loan not found". -/
  | loanNotFound
  /-- Thrown by `makeLoanPayment`: "Payment amount exceeds remaining loan balance". -/
  | paymentExceedsBalance
  /-- Thrown by `makeLoanPayment`: "Insufficient balance"; also the
  `update_balance` model's failure when a debit would drive the
  balance negative. -/
  | insufficientFunds
  /-- failure of the `update_balance` RPC on a missing account row. -/
  | accountNotFound
deriving DecidableEq, Repr

/-- A row of the `transactions` table, as inserted by the operations:
`fromID`/`toID` (`null` is the external bank counter-party), `amount`,
`type`. -/
structure TransRow where
  fromID : Option Nat
  toID : Option Nat
  amount : ℚ
  type : String
deriving DecidableEq, Repr

/-- A row of the `loans` table: only `cust_id`, `amount`, `branch_id`
are inserted by `applyForLoan`; `loan_id` is database-generated. -/
structure LoanRow where
  loan_id : Nat
  cust_id : Nat
  amount : ℚ
  branch_id : Nat
deriving DecidableEq, Repr

/-- The database: `account` table as `(account_id, balance)` pairs,
the append-only `transactions` table, the `loans` table with its
id counter, and the `customers` table as `(id, uid)` pairs. -/
structure DB where
  accounts : List (Nat × ℚ)
  transactions : List TransRow
  loansTable : List LoanRow
  nextLoanId : Nat
  customers : List (Nat × String)
deriving DecidableEq, Repr

/-- The local `Loan` objects kept in React state (`BankingContext.tsx`
type `Loan`); the `createdAt : Date` field is elided. -/
structure Loan where
  id : String
  loan_id : Nat
  cust_id : Nat
  amount : ℚ
  branch_id : Nat
  remainingAmount : ℚ
  monthlyPayment : ℚ
  interestRate : ℚ
  term : Nat
  paid : Bool
  userId : String
deriving DecidableEq, Repr

/-- The authenticated user object supplied by `AuthContext`: the fields
the banking core reads (`id`, `balance`, `accountNumber`). -/
structure User where
  id : String
  balance : ℚ
  accountNumber : String
deriving DecidableEq, Repr

/-- Full state seen by the `BankingProvider`: the database plus the
React state `loans` and `accountId`, and the `user` from `useAuth`. -/
structure BankState where
  db : DB
  loans : List Loan
  accountId : Option Nat
  user : Option User
deriving DecidableEq, Repr

/-- A database mutation performed by an operation: a `transactions`
insert, a `loans` insert, or an `update_balance` call that
succeeded. -/
inductive Ev where
  | insertTrans (row : TransRow)
  | insertLoan (row : LoanRow)
  | updBalance (acct : Nat) (delta : ℚ)
deriving DecidableEq, Repr

/-- Whether the event is an `Ev.insertTrans`. -/
def Ev.isInsert : Ev → Bool
  | .insertTrans _ => true
  | _ => false

/-- Whether the event is an `Ev.updBalance`. -/
def Ev.isUpd : Ev → Bool
  | .updBalance _ _ => true
  | _ => false

/-- Result of one operation: final state, the ordered trace of database
mutations performed, and the thrown error (`none` on success). -/
structure OpResult where
  state : BankState
  trace : List Ev
  err : Option BankErr
deriving DecidableEq, Repr

/-- JavaScript truthiness of the `accountId : number | null` state:
`null` and `0` are falsy. -/
def truthy : Option Nat → Bool
  | none => false
  | some n => n != 0

/-- Balance of an account row, `none` when no row has that id. -/
def getBalance (db : DB) (a : Nat) : Option ℚ :=
  (db.accounts.find? (fun p => p.1 == a)).map (fun p => p.2)

/-- Modelled from the spec: the `update_balance(p_account_id, p_amount)`
database RPC is not under `src/`.  Spec §4.2 describes the underlying
balance primitives: `credit`/`debit` "each validates `amount > 0`",
`debit` "fails with `InsufficientFunds` if resulting balance would be
negative", and LedgerStore's failure conditions are
`InsufficientFunds`, `AccountNotFound`, `InvalidAmount`.  The code
passes the RPC a signed delta (`-amount` for the debit leg, `amount`
for the credit leg), so the model reads: a missing account row fails
with `accountNotFound`; a zero delta (neither a positive credit nor a
positive debit) fails with `invalidAmount`; a negative delta — a
debit — fails with `insufficientFunds` when the resulting balance
would be negative; otherwise the delta is added to the row's
balance. -/
def update_balance (db : DB) (p_account_id : Nat) (p_amount : ℚ) :
    Except BankErr DB :=
  match db.accounts.find? (fun p => p.1 == p_account_id) with
  | none => Except.error BankErr.accountNotFound
  | some pr =>
    if p_amount = 0 then Except.error BankErr.invalidAmount
    else if p_amount < 0 ∧ pr.2 + p_amount < 0 then
      Except.error BankErr.insufficientFunds
    else
      Except.ok { db with
        accounts := db.accounts.map (fun p =>
          if p.1 == p_account_id then (p.1, p.2 + p_amount) else p) }

/-- Append a row to the `transactions` table (a supabase `insert`). -/
def insertTransaction (db : DB) (row : TransRow) : DB :=
  { db with transactions := db.transactions ++ [row] }

/-- The query `customers.select('id').eq('uid', uid).single()`: succeeds exactly
when one customer row has this `uid`. -/
def singleCustomer (db : DB) (uid : String) : Except BankErr Nat :=
  match db.customers.filter (fun c => c.2 == uid) with
  | [c] => Except.ok c.1
  | _ => Except.error BankErr.customerNotFound

/-- The function `transfer(toAccount, amount, description)` of `BankingContext.tsx`
(lines 183-231).  `toAccount` is the destination account number after
`parseInt`.  Steps, in source order: throw `noAccount` on falsy
`accountId`; insert the transaction row with
`type: description || 'Transfer'`; `update_balance(accountId, -amount)`;
`update_balance(parseInt(toAccount), amount)`; the final
`fetchTransactions()` is a pure read.  No validation of `amount`, the
destination, or the source balance is performed here. -/
def transfer (st : BankState) (toAccount : Nat) (amount : ℚ)
    (description : String) : OpResult :=
  match st.accountId with
  | none => ⟨st, [], some BankErr.noAccount⟩
  | some aid =>
    if aid = 0 then ⟨st, [], some BankErr.noAccount⟩
    else
      let row : TransRow :=
        ⟨some aid, some toAccount, amount,
          if description = "" then "Transfer" else description⟩
      let db1 := insertTransaction st.db row
      match update_balance db1 aid (-amount) with
      | Except.error e => ⟨{ st with db := db1 }, [Ev.insertTrans row], some e⟩
      | Except.ok db2 =>
        match update_balance db2 toAccount amount with
        | Except.error e =>
            ⟨{ st with db := db2 },
              [Ev.insertTrans row, Ev.updBalance aid (-amount)], some e⟩
        | Except.ok db3 =>
            ⟨{ st with db := db3 },
              [Ev.insertTrans row, Ev.updBalance aid (-amount),
                Ev.updBalance toAccount amount], none⟩

/-- The interest rate computed inline in `applyForLoan` (line 249):
`5 + (amount > 10000 ? 2 : 0) + (term > 24 ? 1 : 0)`. -/
def interestRateOf (amount : ℚ) (term : Nat) : ℚ :=
  5 + (if amount > 10000 then 2 else 0) + (if term > 24 then 1 else 0)

/-- The monthly payment computed inline in `applyForLoan`
(lines 252-255): with `monthlyInterest = interestRate / 100 / 12`,
`amount * monthlyInterest * (1+monthlyInterest)^term /
((1+monthlyInterest)^term - 1)`. -/
def monthlyPaymentOf (amount : ℚ) (term : Nat) : ℚ :=
  let monthlyInterest := interestRateOf amount term / 100 / 12
  amount * monthlyInterest * (1 + monthlyInterest) ^ term /
    ((1 + monthlyInterest) ^ term - 1)

/-- The function `applyForLoan(amount, term)` of `BankingContext.tsx` (lines 234-329).
Steps, in source order: throw `userNotAuth` on null `user`; validate
`amount > 0` then `3 <= term <= 60`; compute rate and payment; look up
the customer id; insert the loan row `(cust_id, amount, branch_id: 1)`;
if `accountId` is truthy, `update_balance(accountId, amount)` (a falsy
`accountId` skips the credit without error); prepend the new local
`Loan` with `remainingAmount = loanData.amount`, `paid = false`.  No
transaction row is inserted.  The final `fetchTransactions()` is a pure
read. -/
def applyForLoan (st : BankState) (amount : ℚ) (term : Nat) : OpResult :=
  match st.user with
  | none => ⟨st, [], some BankErr.userNotAuth⟩
  | some u =>
    if amount ≤ 0 then ⟨st, [], some BankErr.invalidAmount⟩
    else if term < 3 ∨ term > 60 then ⟨st, [], some BankErr.invalidTerm⟩
    else
      match singleCustomer st.db u.id with
      | Except.error e => ⟨st, [], some e⟩
      | Except.ok custId =>
        let loanId := st.db.nextLoanId
        let loanRow : LoanRow := ⟨loanId, custId, amount, 1⟩
        let db1 := { st.db with
          loansTable := st.db.loansTable ++ [loanRow],
          nextLoanId := loanId + 1 }
        let newLoan : Loan :=
          { id := toString loanId, loan_id := loanId, cust_id := custId,
            amount := amount, branch_id := 1, remainingAmount := amount,
            monthlyPayment := monthlyPaymentOf amount term,
            interestRate := interestRateOf amount term, term := term,
            paid := false, userId := u.id }
        if truthy st.accountId then
          let aid := st.accountId.getD 0
          match update_balance db1 aid amount with
          | Except.error e =>
              ⟨{ st with db := db1 }, [Ev.insertLoan loanRow], some e⟩
          | Except.ok db2 =>
              ⟨{ st with db := db2, loans := newLoan :: st.loans },
                [Ev.insertLoan loanRow, Ev.updBalance aid amount], none⟩
        else
          ⟨{ st with db := db1, loans := newLoan :: st.loans },
            [Ev.insertLoan loanRow], none⟩

/-- Replace the first loan whose `id` matches, as the source's
`loans.findIndex` + index assignment does. -/
def updateFirst (l : List Loan) (loanId : String) (f : Loan → Loan) :
    List Loan :=
  match l with
  | [] => []
  | x :: xs =>
      if x.id == loanId then f x :: xs else x :: updateFirst xs loanId f

/-- The function `makeLoanPayment(loanId, amount)` of `BankingContext.tsx`
(lines 332-406).  Steps, in source order: throw `userNotAuth` on null
`user`; `loanNotFound` when no local loan has this id; validate
`amount > 0`, `amount <= loan.remainingAmount`,
`user.balance >= amount`; then, only when `accountId` is truthy, insert
the `loan-payment` transaction row (toID null = bank),
`update_balance(accountId, -amount)`, and replace the local loan with
`remainingAmount - amount` and `paid := remainingAmount - amount <= 0`.
A falsy `accountId` skips the whole mutation block and the call
resolves successfully.  The final `fetchTransactions()` is a pure
read. -/
def makeLoanPayment (st : BankState) (loanId : String) (amount : ℚ) :
    OpResult :=
  match st.user with
  | none => ⟨st, [], some BankErr.userNotAuth⟩
  | some u =>
    match st.loans.find? (fun l => l.id == loanId) with
    | none => ⟨st, [], some BankErr.loanNotFound⟩
    | some loan =>
      if amount ≤ 0 then ⟨st, [], some BankErr.invalidAmount⟩
      else if amount > loan.remainingAmount then
        ⟨st, [], some BankErr.paymentExceedsBalance⟩
      else if u.balance < amount then
        ⟨st, [], some BankErr.insufficientFunds⟩
      else if truthy st.accountId then
        let aid := st.accountId.getD 0
        let row : TransRow := ⟨some aid, none, amount, "loan-payment"⟩
        let db1 := insertTransaction st.db row
        match update_balance db1 aid (-amount) with
        | Except.error e =>
            ⟨{ st with db := db1 }, [Ev.insertTrans row], some e⟩
        | Except.ok db2 =>
            let loans2 := updateFirst st.loans loanId (fun l =>
              { l with
                remainingAmount := l.remainingAmount - amount
                paid := l.remainingAmount - amount ≤ 0 })
            ⟨{ st with db := db2, loans := loans2 },
              [Ev.insertTrans row, Ev.updBalance aid (-amount)], none⟩
      else ⟨st, [], none⟩

/-- The `Loan` object `fetchLoans` builds from a loans-table row
(`BankingContext.tsx` lines 149-172): `remainingAmount` is recomputed
as `loan.amount * 0.8`, rate as `5 + (amount > 10000 ? 2 : 0)`, term is
the constant 24, payment via
`amount * i / (1 - (1+i)^(-term))`, and `paid := remainingAmount <= 0`. -/
def loanRowToLoan (u : User) (row : LoanRow) : Loan :=
  let remainingAmount : ℚ := row.amount * (8 / 10)
  let interestRate : ℚ := 5 + (if row.amount > 10000 then 2 else 0)
  let term : Nat := 24
  let mi : ℚ := interestRate / 100 / 12
  { id := toString row.loan_id, loan_id := row.loan_id,
    cust_id := row.cust_id, amount := row.amount,
    branch_id := row.branch_id, remainingAmount := remainingAmount,
    monthlyPayment := row.amount * mi / (1 - (1 + mi) ^ (-(24 : ℤ))),
    interestRate := interestRate, term := term,
    paid := remainingAmount ≤ 0, userId := u.id }

/-- The function `fetchLoans()` of `BankingContext.tsx` (lines 127-181): on a signed-in
user, look up the customer, read the customer's loans-table rows and
REPLACE the local `loans` state with `loanRowToLoan` of each row; any
lookup error is caught and leaves the state unchanged. -/
def fetchLoans (st : BankState) : BankState :=
  match st.user with
  | none => st
  | some u =>
    match singleCustomer st.db u.id with
    | Except.error _ => st
    | Except.ok custId =>
      let rows := st.db.loansTable.filter (fun r => r.cust_id == custId)
      { st with loans := rows.map (loanRowToLoan u) }

/-- The validation errors of `TransferModal.handleSubmit`
(`TransferModal.tsx` lines 47-82), surfaced as toasts. -/
inductive GuardErr where
  /-- "Please fill in all required fields". -/
  | missingFields
  /-- "Please enter a valid amount" (NaN or `<= 0`). -/
  | invalidAmountInput
  /-- "Insufficient balance". -/
  | insufficientBalance
  /-- "You cannot transfer to your own account". -/
  | selfTransfer
deriving DecidableEq, Repr

/-- The handler `handleSubmit` of `TransferModal.tsx` (lines 47-82): the raw form
fields are `accountNumber` and `amountStr` (empty string is falsy);
`transferAmount` models `parseFloat(amount)` with `none` for `NaN`.
Checks in source order: both fields present; parsed amount valid and
positive; amount within `user?.balance || 0`; destination differs from
the user's own account number; then invoke
`transfer(accountNumber, transferAmount, description || 'Transfer')`,
parsing the account number to its numeric id. -/
def handleSubmit (st : BankState) (accountNumber : String)
    (amountStr : String) (transferAmount : Option ℚ)
    (description : String) : Option GuardErr × OpResult :=
  if accountNumber = "" ∨ amountStr = "" then
    (some GuardErr.missingFields, ⟨st, [], none⟩)
  else
    match transferAmount with
    | none => (some GuardErr.invalidAmountInput, ⟨st, [], none⟩)
    | some amt =>
      if amt ≤ 0 then (some GuardErr.invalidAmountInput, ⟨st, [], none⟩)
      else if amt > (match st.user with | some u => u.balance | none => 0) then
        (some GuardErr.insufficientBalance, ⟨st, [], none⟩)
      else if (match st.user with
               | some u => accountNumber == u.accountNumber
               | none => false) then
        (some GuardErr.selfTransfer, ⟨st, [], none⟩)
      else
        (none, transfer st ((accountNumber.toNat?).getD 0) amt
          (if description = "" then "Transfer" else description))

/-- The discipline claimed by the spec for every money-moving
operation: a log append never precedes a balance mutation, i.e. no
`updBalance` event follows an `insertTrans` event in the operation's
mutation trace. -/
def logAppendNeverPrecedesUpdate : List Ev → Bool
  | [] => true
  | e :: rest =>
      (if e.isInsert then rest.all (fun x => ! x.isUpd) else true) &&
        logAppendNeverPrecedesUpdate rest

/-- The discipline the code actually follows in `transfer` and
`makeLoanPayment`: every `insertTrans` event precedes every
`updBalance` event, i.e. no `insertTrans` follows an `updBalance`. -/
def insertsPrecedeUpdates : List Ev → Bool
  | [] => true
  | e :: rest =>
      (if e.isUpd then rest.all (fun x => ! x.isInsert) else true) &&
        insertsPrecedeUpdates rest

/-- Concrete state for evaluations: two accounts 1 (balance 5000) and
2 (balance 3000), empty ledger, one customer 7 with uid "u1", the
signed-in user owning account 1. -/
def stA : BankState :=
  { db := { accounts := [(1, 5000), (2, 3000)], transactions := [],
            loansTable := [], nextLoanId := 1, customers := [(7, "u1")] },
    loans := [], accountId := some 1,
    user := some { id := "u1", balance := 5000, accountNumber := "1" } }

/-- The state `stA` with the caller's `accountId` not yet resolved. -/
def stNone : BankState := { stA with accountId := none }

/-- A local loan with 500 remaining, for payment evaluations. -/
def loanP : Loan :=
  { id := "1", loan_id := 1, cust_id := 7, amount := 1000, branch_id := 1,
    remainingAmount := 500, monthlyPayment := 50, interestRate := 5,
    term := 12, paid := false, userId := "u1" }

/-- Payment-scenario state: account 1 (balance 5000), the loans table
row behind `loanP`, and `loanP` in local state. -/
def stP : BankState :=
  { db := { accounts := [(1, 5000)], transactions := [],
            loansTable := [⟨1, 7, 1000, 1⟩], nextLoanId := 2,
            customers := [(7, "u1")] },
    loans := [loanP], accountId := some 1,
    user := some { id := "u1", balance := 5000, accountNumber := "1" } }

/-- A loan with 12000 outstanding, for the overpayment scenario. -/
def loanQ : Loan :=
  { id := "2", loan_id := 2, cust_id := 7, amount := 12000, branch_id := 1,
    remainingAmount := 12000, monthlyPayment := 376, interestRate := 8,
    term := 36, paid := false, userId := "u1" }

/-- Overpayment-scenario state: `loanQ` in local state. -/
def stQ : BankState := { stP with loans := [loanQ] }

/-- A fully paid-off local loan: 0 remaining, `paid = true`. -/
def loanC : Loan :=
  { id := "1", loan_id := 1, cust_id := 7, amount := 1000, branch_id := 1,
    remainingAmount := 0, monthlyPayment := 50, interestRate := 5,
    term := 12, paid := true, userId := "u1" }

/-- Re-fetch scenario state: the paid-off `loanC` locally, its row
still in the loans table. -/
def stC : BankState := { stP with loans := [loanC] }

/-- The `Loan` object a successful `applyForLoan stA 12000 30`
prepends. -/
def loanB : Loan :=
  { id := "1", loan_id := 1, cust_id := 7, amount := 12000, branch_id := 1,
    remainingAmount := 12000, monthlyPayment := monthlyPaymentOf 12000 30,
    interestRate := interestRateOf 12000 30, term := 30,
    paid := false, userId := "u1" }

/-! ## Helper lemmas -/

/-- Unpack a present balance into the underlying account row. -/
theorem getBalance_find_some {db : DB} {a : Nat} {v : ℚ}
    (h : getBalance db a = some v) :
    ∃ pr, db.accounts.find? (fun p => p.1 == a) = some pr ∧ pr.2 = v := by
  unfold getBalance at h
  cases hf : db.accounts.find? (fun p => p.1 == a) with
  | none => rw [hf] at h; cases h
  | some pr =>
    rw [hf] at h
    exact ⟨pr, rfl, by simpa using h⟩

/-- The RPC fails with `accountNotFound` on a missing account row. -/
theorem update_balance_missing {db : DB} {a : Nat} (q : ℚ)
    (h : getBalance db a = none) :
    update_balance db a q = Except.error BankErr.accountNotFound := by
  unfold update_balance
  split
  · rfl
  · rename_i pr heq
    unfold getBalance at h
    rw [heq] at h
    cases h

/-- The RPC succeeds on an existing row when the delta is non-zero and
a debit would not drive the balance negative. -/
theorem update_balance_ok {db : DB} {a : Nat} {v : ℚ} (q : ℚ)
    (h : getBalance db a = some v) (hq : q ≠ 0)
    (hneg : ¬(q < 0 ∧ v + q < 0)) :
    update_balance db a q = Except.ok { db with
      accounts := db.accounts.map (fun p =>
        if p.1 == a then (p.1, p.2 + q) else p) } := by
  obtain ⟨pr, hf, hv⟩ := getBalance_find_some h
  unfold update_balance
  split
  · rename_i heq
    rw [heq] at hf
    cases hf
  · rename_i pr2 heq
    rw [heq] at hf
    injection hf with hf2
    subst hf2
    rw [if_neg hq, if_neg (by rw [hv]; exact hneg)]

/-- The per-row balance bump preserves `find?` by id, because it never
changes a row's id. -/
theorem find_fst_map_update (l : List (Nat × ℚ)) (a t : Nat) (q : ℚ) :
    (l.map (fun p => if p.1 == a then (p.1, p.2 + q) else p)).find?
        (fun p => p.1 == t)
      = (l.find? (fun p => p.1 == t)).map (fun p =>
          if p.1 == a then (p.1, p.2 + q) else p) := by
  induction l with
  | nil => rfl
  | cons x xs ih =>
    simp only [List.map_cons]
    by_cases ha : (x.1 == a) = true
    · rw [if_pos ha]
      by_cases hx : (x.1 == t) = true
      · rw [@List.find?_cons_of_pos _ (fun p => p.1 == t) (x.1, x.2 + q) _ hx,
          @List.find?_cons_of_pos _ (fun p => p.1 == t) x _ hx]
        have ha2 : x.1 = a := by simpa using ha
        simp [ha2]
      · rw [@List.find?_cons_of_neg _ (fun p => p.1 == t) (x.1, x.2 + q) _ hx,
          @List.find?_cons_of_neg _ (fun p => p.1 == t) x _ hx]
        exact ih
    · rw [if_neg ha]
      by_cases hx : (x.1 == t) = true
      · rw [@List.find?_cons_of_pos _ (fun p => p.1 == t) x _ hx,
          @List.find?_cons_of_pos _ (fun p => p.1 == t) x _ hx]
        have ha2 : ¬ x.1 = a := by simpa using ha
        simp [ha2]
      · rw [@List.find?_cons_of_neg _ (fun p => p.1 == t) x _ hx,
          @List.find?_cons_of_neg _ (fun p => p.1 == t) x _ hx]
        exact ih

/-- Balance lookup after the per-row bump: the touched id moves by `q`,
every other id is unchanged. -/
theorem getBalance_after_update (db : DB) (a t : Nat) (q : ℚ) :
    getBalance { db with accounts := db.accounts.map (fun p =>
        if p.1 == a then (p.1, p.2 + q) else p) } t
      = if t = a then (getBalance db t).map (fun v => v + q)
        else getBalance db t := by
  unfold getBalance
  rw [show ({ db with accounts := db.accounts.map (fun p =>
      if p.1 == a then (p.1, p.2 + q) else p) } : DB).accounts
    = db.accounts.map (fun p => if p.1 == a then (p.1, p.2 + q) else p)
    from rfl]
  rw [find_fst_map_update]
  cases hf : db.accounts.find? (fun p => p.1 == t) with
  | none => by_cases h : t = a <;> simp [h]
  | some pr =>
    have hp := List.find?_some hf
    have hpt : pr.1 = t := by simpa using hp
    by_cases h : t = a
    · subst h; simp [hpt]
    · simp [hpt, h]

/-! ## Claim theorems -/

/-- C8: a loan payment whose amount strictly exceeds the loan's
(non-negative) remaining balance is rejected with
`paymentExceedsBalance` before any mutation: the state is returned
exactly unchanged and the amount is never clamped or partially
applied. -/
theorem makeLoanPayment_overpayment_rejected (st : BankState)
    (loanId : String) (amount : ℚ) (u : User) (loan : Loan)
    (hu : st.user = some u)
    (hl : st.loans.find? (fun l => l.id == loanId) = some loan)
    (hrem : 0 ≤ loan.remainingAmount)
    (hover : loan.remainingAmount < amount) :
    makeLoanPayment st loanId amount =
      ⟨st, [], some BankErr.paymentExceedsBalance⟩ := by
  unfold makeLoanPayment
  simp only [hu, hl]
  rw [if_neg (by linarith), if_pos hover]

/-- C8 witness: paying 15000 against `loanQ` (12000 outstanding) in
`stQ` is rejected with `paymentExceedsBalance` and changes nothing. -/
theorem makeLoanPayment_overpayment_rejected_witness :
    makeLoanPayment stQ "2" 15000 =
      ⟨stQ, [], some BankErr.paymentExceedsBalance⟩ :=
  makeLoanPayment_overpayment_rejected stQ "2" 15000
    { id := "u1", balance := 5000, accountNumber := "1" } loanQ
    rfl rfl (by norm_num [loanQ]) (by norm_num [loanQ])

/-- C10: a loan payment that passes every validation (loan found,
positive amount within the remaining balance, user balance covers it)
but runs with an unresolved `accountId` resolves successfully while
mutating nothing: no transaction row, no balance update, no loan
update. -/
theorem makeLoanPayment_unresolved_account_noop (st : BankState)
    (loanId : String) (amount : ℚ) (u : User) (loan : Loan)
    (hu : st.user = some u)
    (hl : st.loans.find? (fun l => l.id == loanId) = some loan)
    (hpos : 0 < amount) (hle : amount ≤ loan.remainingAmount)
    (hbal : amount ≤ u.balance) (hacct : st.accountId = none) :
    makeLoanPayment st loanId amount = ⟨st, [], none⟩ := by
  unfold makeLoanPayment
  simp only [hu, hl]
  rw [if_neg (by linarith), if_neg (by linarith), if_neg (by linarith),
    if_neg (by rw [hacct]; simp [truthy])]

/-- C10 witness: paying 100 against `loanP` with `accountId = none`
resolves successfully with no state change. -/
theorem makeLoanPayment_unresolved_account_noop_witness :
    makeLoanPayment { stP with accountId := none } "1" 100 =
      ⟨{ stP with accountId := none }, [], none⟩ :=
  makeLoanPayment_unresolved_account_noop { stP with accountId := none }
    "1" 100 { id := "u1", balance := 5000, accountNumber := "1" } loanP
    rfl rfl (by norm_num) (by norm_num [loanP]) (by norm_num) rfl

/-- C9 (failing input): the paid-off local loan `loanC`
(`remainingAmount = 0`, `paid = true`) whose table row has
`amount = 1000`; calling `fetchLoans` rebuilds it with
`remainingAmount = 0.8 * 1000 = 800 > 0` and `paid = false`, so
`remainingAmount` increases and `paid` reverts to `false`. -/
theorem fetchLoans_breaks_loan_monotonicity :
    stC.loans.map (fun l => (l.remainingAmount, l.paid)) = [(0, true)] ∧
    (fetchLoans stC).loans.map (fun l => (l.remainingAmount, l.paid)) =
      [(800, false)] := by
  exact ⟨rfl, by norm_num [fetchLoans, stC, stP, loanC, singleCustomer,
    loanRowToLoan]⟩

/-- C1 counterexample: a transfer to the nonexistent account 99 fails
with `accountNotFound`, yet the transaction row is already inserted
and the source already debited — a failed call that changed balances
and the log. -/
theorem transfer_partial_failure_mutates_state :
    (transfer stA 99 100 "").err = some BankErr.accountNotFound ∧
    (transfer stA 99 100 "").state.db.transactions =
      [⟨some 1, some 99, 100, "Transfer"⟩] ∧
    getBalance (transfer stA 99 100 "").state.db 1 = some 4900 := by
  refine ⟨?_, ?_, ?_⟩ <;>
    norm_num [transfer, stA, update_balance, insertTransaction, getBalance]

/-- C2 counterexample: the mutation trace of a successful transfer
starts with the log append and only then performs the two balance
updates, violating the claimed append-after-mutation order. -/
theorem transfer_appends_log_before_balance_updates :
    logAppendNeverPrecedesUpdate (transfer stA 2 100 "").trace = false := by
  norm_num [transfer, stA, update_balance, insertTransaction,
    logAppendNeverPrecedesUpdate, Ev.isInsert, Ev.isUpd]

/-- C3 counterexample: a direct `transfer` call with amount -50 is not
rejected: it succeeds, records a transaction with negative amount, and
moves 50 in the reverse direction. -/
theorem transfer_accepts_nonpositive_amount :
    (transfer stA 2 (-50) "").err = none ∧
    (transfer stA 2 (-50) "").state.db.transactions =
      [⟨some 1, some 2, -50, "Transfer"⟩] ∧
    getBalance (transfer stA 2 (-50) "").state.db 1 = some 5050 ∧
    getBalance (transfer stA 2 (-50) "").state.db 2 = some 2950 := by
  refine ⟨?_, ?_, ?_, ?_⟩ <;>
    norm_num [transfer, stA, update_balance, insertTransaction, getBalance]

/-- C4 counterexample: a transfer to the nonexistent account 77 is
rejected with `accountNotFound`, but the state has changed: the
transaction row persists and the source was debited. -/
theorem transfer_unknown_destination_leaves_partial_state :
    (transfer stA 77 25 "bills").err = some BankErr.accountNotFound ∧
    (transfer stA 77 25 "bills").state.db.transactions =
      [⟨some 1, some 77, 25, "bills"⟩] ∧
    getBalance (transfer stA 77 25 "bills").state.db 1 = some 4975 := by
  refine ⟨?_, ?_, ?_⟩ <;>
    (norm_num [transfer, stA, update_balance, insertTransaction,
      getBalance]
     try decide)

/-- C5 counterexample: a successful transfer with description "rent"
appends exactly one transaction, and its `type` is "rent" — no
appended row has kind `transfer`. -/
theorem transfer_records_description_as_type :
    (transfer stA 2 100 "rent").err = none ∧
    (transfer stA 2 100 "rent").state.db.transactions =
      [⟨some 1, some 2, 100, "rent"⟩] ∧
    (transfer stA 2 100 "rent").state.db.transactions.filter
      (fun r => r.type == "transfer") = [] := by
  refine ⟨?_, ?_, ?_⟩ <;>
    (norm_num [transfer, stA, update_balance, insertTransaction]
     try decide)

/-- C7 counterexample: a successful loan application leaves the
transaction log exactly as it was — no loan-disbursement transaction
is ever appended. -/
theorem applyForLoan_appends_no_transaction :
    (applyForLoan stA 500 12).err = none ∧
    (applyForLoan stA 500 12).state.db.transactions =
      stA.db.transactions := by
  refine ⟨?_, ?_⟩ <;>
    norm_num [applyForLoan, stA, update_balance, insertTransaction,
      singleCustomer, truthy]

/-- C1 (amended): every operation rejected BEFORE its first database
mutation — its mutation trace is empty — leaves the entire state (all
balances, the transaction log, the loans) exactly unchanged: this
covers transfer's `accountId` guard, applyForLoan's user, amount, term
and customer validations, and makeLoanPayment's user, loan, amount,
overpayment and balance validations.  A call that fails after mutating
(nonempty trace) leaves the performed mutations in place (see the
counterexample). -/
theorem rejected_operations_preserve_state (st : BankState)
    (toAccount : Nat) (amount : ℚ) (description loanId : String)
    (term : Nat) (e : BankErr) :
    ((transfer st toAccount amount description).err = some e →
      (transfer st toAccount amount description).trace = [] →
      (transfer st toAccount amount description).state = st) ∧
    ((applyForLoan st amount term).err = some e →
      (applyForLoan st amount term).trace = [] →
      (applyForLoan st amount term).state = st) ∧
    ((makeLoanPayment st loanId amount).err = some e →
      (makeLoanPayment st loanId amount).trace = [] →
      (makeLoanPayment st loanId amount).state = st) := by
  refine ⟨?_, ?_, ?_⟩
  · unfold transfer
    split
    · intro _ _; rfl
    · split
      · intro _ _; rfl
      · dsimp only
        generalize (if description = "" then "Transfer" else description)
          = ty
        split
        · intro _ h2; simp at h2
        · split
          · intro _ h2; simp at h2
          · intro h1 _; simp at h1
  · unfold applyForLoan
    split
    · intro _ _; rfl
    · split
      · intro _ _; rfl
      · split
        · intro _ _; rfl
        · split
          · intro _ _; rfl
          · dsimp only
            split
            · split
              · intro _ h2; simp at h2
              · intro h1 _; simp at h1
            · intro h1 _; simp at h1
  · unfold makeLoanPayment
    split
    · intro _ _; rfl
    · split
      · intro _ _; rfl
      · split
        · intro _ _; rfl
        · split
          · intro _ _; rfl
          · split
            · intro _ _; rfl
            · split
              · dsimp only
                split
                · intro _ h2; simp at h2
                · intro h1 _; simp at h1
              · intro _ _; rfl

/-- C1 witness: a transfer attempted with an unresolved `accountId` is
rejected with `noAccount` before any mutation (empty trace) and the
state is exactly unchanged. -/
theorem rejected_operations_preserve_state_witness :
    (transfer stNone 2 100 "").err = some BankErr.noAccount ∧
    (transfer stNone 2 100 "").trace = [] ∧
    (transfer stNone 2 100 "").state = stNone :=
  ⟨rfl, rfl, (rejected_operations_preserve_state stNone 2 100 "" "1" 12
      BankErr.noAccount).1 rfl rfl⟩

/-- C2 (amended): the code's actual mutation order — in `transfer` and
`makeLoanPayment` the transaction row is inserted BEFORE every balance
update (every insert precedes every update in the trace), and
`applyForLoan` performs its balance update without appending any
transaction at all. -/
theorem mutation_order_in_operations (st : BankState) (toAccount : Nat)
    (amount : ℚ) (description loanId : String) (term : Nat) :
    insertsPrecedeUpdates (transfer st toAccount amount description).trace
      = true ∧
    insertsPrecedeUpdates (makeLoanPayment st loanId amount).trace
      = true ∧
    (applyForLoan st amount term).trace.all (fun e => ! e.isInsert)
      = true := by
  refine ⟨?_, ?_, ?_⟩
  · unfold transfer
    split
    · rfl
    · split
      · rfl
      · dsimp only
        generalize (if description = "" then "Transfer" else description)
          = ty
        split
        · rfl
        · split
          · rfl
          · rfl
  · unfold makeLoanPayment
    split
    · rfl
    · split
      · rfl
      · split
        · rfl
        · split
          · rfl
          · split
            · rfl
            · split
              · dsimp only
                split
                · rfl
                · rfl
              · rfl
  · unfold applyForLoan
    split
    · rfl
    · split
      · rfl
      · split
        · rfl
        · split
          · rfl
          · dsimp only
            split
            · split
              · rfl
              · rfl
            · rfl

/-- C3 (amended): the `amount <= 0` check lives only in the
TransferModal: `handleSubmit` with a parsed amount `<= 0` (and
non-empty form fields) is rejected with the invalid-amount toast
before `transfer` is ever invoked, leaving the state untouched and the
mutation trace empty; the `transfer` function itself performs no such
validation (see the counterexample). -/
theorem handleSubmit_rejects_nonpositive_amount (st : BankState)
    (accountNumber amountStr : String) (amt : ℚ) (description : String)
    (hacc : accountNumber ≠ "") (hamt : amountStr ≠ "")
    (hle : amt ≤ 0) :
    handleSubmit st accountNumber amountStr (some amt) description =
      (some GuardErr.invalidAmountInput, ⟨st, [], none⟩) := by
  unfold handleSubmit
  rw [if_neg (by push_neg; exact ⟨hacc, hamt⟩)]
  dsimp only
  rw [if_pos hle]

/-- C3 witness: submitting -50 through the modal is rejected with the
invalid-amount error and no state change. -/
theorem handleSubmit_rejects_nonpositive_amount_witness :
    handleSubmit stA "2" "-50" (some (-50)) "" =
      (some GuardErr.invalidAmountInput, ⟨stA, [], none⟩) :=
  handleSubmit_rejects_nonpositive_amount stA "2" "-50" (-50) ""
    (by decide) (by decide) (by norm_num)

/-- C4 (amended): a transfer whose destination account number does not
resolve to an existing account is rejected with `accountNotFound` —
but only by the destination balance update, after the transaction row
has been inserted and the source debited; those mutations persist. -/
theorem transfer_unknown_destination_spec (st : BankState)
    (aid toAccount : Nat) (amount v : ℚ) (description : String)
    (hacct : st.accountId = some aid) (h0 : aid ≠ 0)
    (hpos : 0 < amount) (hcov : amount ≤ v)
    (hsrc : getBalance st.db aid = some v)
    (hdst : getBalance st.db toAccount = none) :
    (transfer st toAccount amount description).err =
      some BankErr.accountNotFound ∧
    (transfer st toAccount amount description).state.db.transactions =
      st.db.transactions ++ [⟨some aid, some toAccount, amount,
        if description = "" then "Transfer" else description⟩] ∧
    getBalance (transfer st toAccount amount description).state.db aid =
      some (v - amount) := by
  unfold transfer
  rw [hacct]
  dsimp only
  rw [if_neg h0]
  set row : TransRow := ⟨some aid, some toAccount, amount,
    if description = "" then "Transfer" else description⟩ with hrow
  have hsrc1 : getBalance (insertTransaction st.db row) aid = some v :=
    hsrc
  rw [update_balance_ok (-amount) hsrc1 (neg_ne_zero.mpr hpos.ne')
    (by rintro ⟨-, h2⟩; linarith)]
  dsimp only
  have hne : toAccount ≠ aid := by
    intro h
    rw [h, hsrc] at hdst
    cases hdst
  have hdst1 : getBalance { insertTransaction st.db row with
      accounts := (insertTransaction st.db row).accounts.map (fun p =>
        if p.1 == aid then (p.1, p.2 + -amount) else p) } toAccount =
      none := by
    rw [getBalance_after_update, if_neg hne]
    exact hdst
  rw [update_balance_missing amount hdst1]
  dsimp only
  refine ⟨rfl, rfl, ?_⟩
  rw [getBalance_after_update, if_pos rfl]
  have hsrc2 : getBalance (insertTransaction st.db row) aid = some v :=
    hsrc
  rw [hsrc2]
  simp [sub_eq_add_neg]

/-- C4 witness: transferring 100 from account 1 to the nonexistent
account 99 in `stA` fails with `accountNotFound`, appends the row, and
debits the source. -/
theorem transfer_unknown_destination_spec_witness :
    (transfer stA 99 100 "").err = some BankErr.accountNotFound ∧
    (transfer stA 99 100 "").state.db.transactions =
      stA.db.transactions ++ [⟨some 1, some 99, 100,
        if "" = "" then "Transfer" else ""⟩] ∧
    getBalance (transfer stA 99 100 "").state.db 1 = some (5000 - 100) :=
  transfer_unknown_destination_spec stA 1 99 100 5000 "" rfl
    (by decide) (by norm_num) (by norm_num) rfl rfl

/-- List-level form of `getBalance_after_update`, applicable
whatever record the mapped accounts list sits in. -/
theorem find_map_update_snd (l : List (Nat × ℚ)) (a t : Nat) (q : ℚ) :
    ((l.map (fun p => if p.1 == a then (p.1, p.2 + q) else p)).find?
        (fun p => p.1 == t)).map (fun p => p.2)
      = if t = a
        then ((l.find? (fun p => p.1 == t)).map (fun p => p.2)).map
          (fun v => v + q)
        else (l.find? (fun p => p.1 == t)).map (fun p => p.2) := by
  rw [find_fst_map_update]
  cases hf : l.find? (fun p => p.1 == t) with
  | none => by_cases h : t = a <;> simp [h]
  | some pr =>
    have hp := List.find?_some hf
    have hpt : pr.1 = t := by simpa using hp
    by_cases h : t = a
    · subst h; simp [hpt]
    · simp [hpt, h]

/-- C5 (amended): a successful transfer of a positive amount between
two distinct existing accounts debits the source by exactly the
amount, credits the destination by exactly the amount, and appends
exactly one transaction row — whose `type` is the caller-supplied
description ("Transfer" when empty), not the literal kind
`transfer`. -/
theorem transfer_success_spec (st : BankState) (aid toAccount : Nat)
    (amount v1 v2 : ℚ) (description : String)
    (hacct : st.accountId = some aid) (h0 : aid ≠ 0) (hpos : 0 < amount)
    (hcov : amount ≤ v1)
    (hsrc : getBalance st.db aid = some v1)
    (hdst : getBalance st.db toAccount = some v2)
    (hne : toAccount ≠ aid) :
    (transfer st toAccount amount description).err = none ∧
    getBalance (transfer st toAccount amount description).state.db aid =
      some (v1 - amount) ∧
    getBalance (transfer st toAccount amount description).state.db
      toAccount = some (v2 + amount) ∧
    (transfer st toAccount amount description).state.db.transactions =
      st.db.transactions ++ [⟨some aid, some toAccount, amount,
        if description = "" then "Transfer" else description⟩] := by
  unfold transfer
  rw [hacct]
  dsimp only
  rw [if_neg h0]
  set row : TransRow := ⟨some aid, some toAccount, amount,
    if description = "" then "Transfer" else description⟩ with hrow
  have hsrc1 : getBalance (insertTransaction st.db row) aid = some v1 :=
    hsrc
  rw [update_balance_ok (-amount) hsrc1 (neg_ne_zero.mpr hpos.ne')
    (by rintro ⟨-, h2⟩; linarith)]
  dsimp only
  have hdst1 : getBalance { insertTransaction st.db row with
      accounts := (insertTransaction st.db row).accounts.map (fun p =>
        if p.1 == aid then (p.1, p.2 + -amount) else p) } toAccount =
      some v2 := by
    rw [getBalance_after_update, if_neg hne]
    exact hdst
  rw [update_balance_ok amount hdst1 hpos.ne'
    (by rintro ⟨h1, -⟩; linarith)]
  dsimp only
  refine ⟨rfl, ?_, ?_, rfl⟩
  · unfold getBalance
    dsimp only
    rw [find_map_update_snd, if_neg (fun h => hne h.symm),
      find_map_update_snd, if_pos rfl]
    have hsrc2 : ((insertTransaction st.db row).accounts.find?
        (fun p => p.1 == aid)).map (fun p => p.2) = some v1 := hsrc
    rw [hsrc2]
    simp [sub_eq_add_neg]
  · unfold getBalance
    dsimp only
    rw [find_map_update_snd, if_pos rfl, find_map_update_snd,
      if_neg hne]
    have hdst2 : ((insertTransaction st.db row).accounts.find?
        (fun p => p.1 == toAccount)).map (fun p => p.2) = some v2 := hdst
    rw [hdst2]
    rfl

/-- C5 witness (Scenario A): transferring 100 from account 1 (5000) to
account 2 (3000) succeeds, yielding 4900 and 3100 and appending one
row with type "Transfer". -/
theorem transfer_success_spec_witness :
    (transfer stA 2 100 "").err = none ∧
    getBalance (transfer stA 2 100 "").state.db 1 = some (5000 - 100) ∧
    getBalance (transfer stA 2 100 "").state.db 2 = some (3000 + 100) ∧
    (transfer stA 2 100 "").state.db.transactions =
      stA.db.transactions ++ [⟨some 1, some 2, 100,
        if "" = "" then "Transfer" else ""⟩] :=
  transfer_success_spec stA 1 2 100 5000 3000 "" rfl (by decide)
    (by norm_num) (by norm_num) rfl rfl (by decide)

/-- Shape of a successful `applyForLoan`: the new local `Loan` is
prepended, with the fields the code computes. -/
theorem applyForLoan_ok_shape (st : BankState) (amount : ℚ)
    (term : Nat) :
    (applyForLoan st amount term).err = none →
    ∃ custId uid,
      (applyForLoan st amount term).state.loans =
        { id := toString st.db.nextLoanId, loan_id := st.db.nextLoanId,
          cust_id := custId, amount := amount, branch_id := 1,
          remainingAmount := amount,
          monthlyPayment := monthlyPaymentOf amount term,
          interestRate := interestRateOf amount term, term := term,
          paid := false, userId := uid } :: st.loans := by
  unfold applyForLoan
  split
  · intro hok; simp at hok
  · split
    · intro hok; simp at hok
    · split
      · intro hok; simp at hok
      · split
        · intro hok; simp at hok
        · dsimp only
          split
          · split
            · intro hok; simp at hok
            · intro _; exact ⟨_, _, rfl⟩
          · intro _; exact ⟨_, _, rfl⟩

/-- C6: on every loan application with positive principal and term in
[3, 60] that succeeds, the created loan carries the annual rate
5 + 2·[amount > 10000] + 1·[term > 24] percent and the monthly payment
P·i·(1+i)^n / ((1+i)^n − 1) with i = rate/100/12, n = term. -/
theorem applyForLoan_rate_and_payment_formula (st : BankState)
    (amount : ℚ) (term : Nat) (l : Loan)
    (hpos : 0 < amount) (h3 : 3 ≤ term) (h60 : term ≤ 60)
    (hok : (applyForLoan st amount term).err = none)
    (hl : (applyForLoan st amount term).state.loans.head? = some l) :
    l.interestRate =
      5 + (if amount > 10000 then 2 else 0) +
        (if term > 24 then 1 else 0) ∧
    l.monthlyPayment =
      amount * (l.interestRate / 100 / 12) *
        (1 + l.interestRate / 100 / 12) ^ term /
        ((1 + l.interestRate / 100 / 12) ^ term - 1) := by
  obtain ⟨custId, uid, hshape⟩ := applyForLoan_ok_shape st amount term hok
  rw [hshape] at hl
  simp only [List.head?_cons, Option.some.injEq] at hl
  subst hl
  exact ⟨rfl, rfl⟩

/-- C6 witness (Scenario B): a 12000-over-30-months application in
`stA` succeeds; its loan `loanB` has rate 5+2+1 = 8 and the
amortization payment. -/
theorem applyForLoan_rate_and_payment_formula_witness :
    (0 : ℚ) < 12000 ∧ 3 ≤ 30 ∧ 30 ≤ 60 ∧
    (applyForLoan stA 12000 30).err = none ∧
    (applyForLoan stA 12000 30).state.loans.head? = some loanB ∧
    (loanB.interestRate =
      5 + (if (12000 : ℚ) > 10000 then 2 else 0) +
        (if 30 > 24 then 1 else 0) ∧
    loanB.monthlyPayment =
      12000 * (loanB.interestRate / 100 / 12) *
        (1 + loanB.interestRate / 100 / 12) ^ 30 /
        ((1 + loanB.interestRate / 100 / 12) ^ 30 - 1)) :=
  ⟨by norm_num, by norm_num, by norm_num, rfl, rfl,
    applyForLoan_rate_and_payment_formula stA 12000 30 loanB
      (by norm_num) (by norm_num) (by norm_num) rfl rfl⟩

/-- C7 (amended): a successful loan application (valid amount and term,
resolved customer and account) creates the local loan with
`remainingAmount` equal to the principal and `paid = false`, credits
the customer's account by exactly the principal — and appends NO
transaction to the log: the code performs the disbursement without any
loan-disbursement record. -/
theorem applyForLoan_success_spec (st : BankState) (amount v : ℚ)
    (term : Nat) (aid : Nat) (u : User) (custId : Nat)
    (hu : st.user = some u)
    (hcust : singleCustomer st.db u.id = Except.ok custId)
    (hpos : 0 < amount) (h3 : 3 ≤ term) (h60 : term ≤ 60)
    (hacct : st.accountId = some aid) (h0 : aid ≠ 0)
    (hbal : getBalance st.db aid = some v) :
    (applyForLoan st amount term).err = none ∧
    (applyForLoan st amount term).state.loans.head?.map
      (fun l => (l.remainingAmount, l.paid)) = some (amount, false) ∧
    getBalance (applyForLoan st amount term).state.db aid =
      some (v + amount) ∧
    (applyForLoan st amount term).state.db.transactions =
      st.db.transactions := by
  unfold applyForLoan
  rw [hu]
  dsimp only
  rw [if_neg (by linarith)]
  rw [if_neg (by push_neg; omega)]
  rw [hcust]
  dsimp only
  rw [hacct]
  rw [if_pos (show truthy (some aid) = true by simp [truthy, h0])]
  dsimp only [Option.getD]
  unfold update_balance
  dsimp only
  obtain ⟨pr, hf, hv⟩ := getBalance_find_some hbal
  rw [hf]
  dsimp only
  rw [if_neg hpos.ne', if_neg (by rintro ⟨h1, -⟩; linarith)]
  refine ⟨rfl, rfl, ?_, rfl⟩
  unfold getBalance
  dsimp only
  rw [find_map_update_snd, if_pos rfl]
  have hbal2 : (st.db.accounts.find? (fun p => p.1 == aid)).map
      (fun p => p.2) = some v := hbal
  rw [hbal2]
  rfl

/-- C7 witness: applying for 2000 over 12 months in `stA` succeeds,
creates the loan with 2000 remaining and `paid = false`, credits
account 1 from 5000 to 7000, and appends nothing to the log. -/
theorem applyForLoan_success_spec_witness :
    (applyForLoan stA 2000 12).err = none ∧
    (applyForLoan stA 2000 12).state.loans.head?.map
      (fun l => (l.remainingAmount, l.paid)) = some (2000, false) ∧
    getBalance (applyForLoan stA 2000 12).state.db 1 =
      some (5000 + 2000) ∧
    (applyForLoan stA 2000 12).state.db.transactions =
      stA.db.transactions :=
  applyForLoan_success_spec stA 2000 5000 12 1
    { id := "u1", balance := 5000, accountNumber := "1" } 7
    rfl rfl (by norm_num) (by norm_num) (by norm_num) rfl (by decide) rfl
